import Mathlib

/-!
Shallow embedding of `src/scatter_analysis.py` (SCATTER Finish and Duration
Variance analysis tool), together with proofs about its cleaning, bucketing,
quadrant and export logic.

Numeric cell values are modelled as rationals (`ℚ`).  A raw numeric cell is
`Option ℚ`: `some q` stands for a cell whose content parses to the number `q`
under `pd.to_numeric(..., errors='coerce')`, and `none` stands for a cell whose
content fails numeric parsing (coerced to NaN) or is already missing.
-/

namespace Scatter

/-- One input row of the spreadsheet read at line 89 (`pd.read_excel`).  The
three numeric columns are kept as parse results (`Option ℚ`), reflecting the
`pd.to_numeric(..., errors='coerce')` coercion at lines 101-103:  `none` is a
value that does not parse to a number (NaN after coercion). -/
structure RawRow where
  activityId : String
  activityName : String
  activityStatus : String
  varianceBLFinish : Option ℚ
  varianceBLDuration : Option ℚ
  totalFloat : Option ℚ
deriving DecidableEq

/-- A cleaned row, after `dropna` at line 106: all three numeric fields are
present as numbers. -/
structure CleanRow where
  activityId : String
  activityName : String
  activityStatus : String
  varianceBLFinish : ℚ
  varianceBLDuration : ℚ
  totalFloat : ℚ
deriving DecidableEq

/-- Line 97: `df[df['Activity Status'] != 'Completed']` — keep the rows whose
status is not the exact string `'Completed'`. -/
def statusFilter (df : List RawRow) : List RawRow :=
  df.filter (fun r => decide (r.activityStatus ≠ "Completed"))

/-- Line 106: `dropna(subset=[...])` — a row survives exactly when all three
numeric columns parsed; its payload is carried over unchanged. -/
def dropnaRow (r : RawRow) : Option CleanRow :=
  match r.varianceBLFinish, r.varianceBLDuration, r.totalFloat with
  | some x, some y, some z =>
      some ⟨r.activityId, r.activityName, r.activityStatus, x, y, z⟩
  | _, _, _ => none

/-- Lines 97-106: the cleaned record set — status filter, numeric coercion,
then `dropna` on the three numeric columns. -/
def cleanRows (df : List RawRow) : List CleanRow :=
  (statusFilter df).filterMap dropnaRow

/-- Lines 115-123: `categorize_float`.  The `if`/`elif` chain translated
branch by branch. -/
def categorize_float (total_float : ℚ) : String :=
  if total_float ≤ 0 then "Total Float ≤ 0"
  else if total_float ≤ 10 then "0 < Total Float ≤ 10"
  else if total_float ≤ 20 then "10 < Total Float ≤ 20"
  else "Total Float > 20"

/-- Lines 136-141: `category_order`, the fixed list of the four bucket
labels. -/
def category_order : List String :=
  ["Total Float ≤ 0", "0 < Total Float ≤ 10", "10 < Total Float ≤ 20",
   "Total Float > 20"]

/-- Line 42 (and the identical expression at lines 281 and 328):
`filtered_df['Total Float'] <= 0`. -/
def in_tf_0 (r : CleanRow) : Bool :=
  decide (r.totalFloat ≤ 0)

/-- Line 46 (and lines 282, 329):
`(filtered_df['Total Float'] > 0) & (filtered_df['Total Float'] <= 10)`. -/
def in_tf_0_10 (r : CleanRow) : Bool :=
  decide (0 < r.totalFloat) && decide (r.totalFloat ≤ 10)

/-- Line 50 (and lines 283, 330):
`(filtered_df['Total Float'] > 10) & (filtered_df['Total Float'] <= 20)`. -/
def in_tf_10_20 (r : CleanRow) : Bool :=
  decide (10 < r.totalFloat) && decide (r.totalFloat ≤ 20)

/-- Line 54 (and lines 284, 331): `filtered_df['Total Float'] > 20`. -/
def in_tf_20 (r : CleanRow) : Bool :=
  decide (20 < r.totalFloat)

/-- Line 42: `df_tf_0 = filtered_df[filtered_df['Total Float'] <= 0]`. -/
def df_tf_0 (filtered_df : List CleanRow) : List CleanRow :=
  filtered_df.filter in_tf_0

/-- Line 46: the `0 < Total Float ≤ 10` sheet selection. -/
def df_tf_0_10 (filtered_df : List CleanRow) : List CleanRow :=
  filtered_df.filter in_tf_0_10

/-- Line 50: the `10 < Total Float ≤ 20` sheet selection. -/
def df_tf_10_20 (filtered_df : List CleanRow) : List CleanRow :=
  filtered_df.filter in_tf_10_20

/-- Line 54: the `Total Float > 20` sheet selection. -/
def df_tf_20 (filtered_df : List CleanRow) : List CleanRow :=
  filtered_df.filter in_tf_20

/-- Lines 305-306: the `"Earlier and shorter"` quadrant — rows with
finish variance `< 0` and duration variance `< 0`. -/
def quadrant_earlier_and_shorter (filtered_df : List CleanRow) : List CleanRow :=
  filtered_df.filter
    (fun r => decide (r.varianceBLFinish < 0) && decide (r.varianceBLDuration < 0))

/-- Lines 307-308: the `"Earlier but longer"` quadrant — finish variance `< 0`
and duration variance `> 0`. -/
def quadrant_earlier_but_longer (filtered_df : List CleanRow) : List CleanRow :=
  filtered_df.filter
    (fun r => decide (r.varianceBLFinish < 0) && decide (r.varianceBLDuration > 0))

/-- Lines 309-310: the `"Later but shorter"` quadrant — finish variance `> 0`
and duration variance `< 0`. -/
def quadrant_later_but_shorter (filtered_df : List CleanRow) : List CleanRow :=
  filtered_df.filter
    (fun r => decide (r.varianceBLFinish > 0) && decide (r.varianceBLDuration < 0))

/-- Lines 311-312: the `"Later and longer"` quadrant — finish variance `> 0`
and duration variance `> 0`. -/
def quadrant_later_and_longer (filtered_df : List CleanRow) : List CleanRow :=
  filtered_df.filter
    (fun r => decide (r.varianceBLFinish > 0) && decide (r.varianceBLDuration > 0))

/-- Line 280: `len(filtered_df)`, the total reported in the summary
annotation `info_text`. -/
def info_total_activities (filtered_df : List CleanRow) : ℕ :=
  filtered_df.length

/-- Line 281: the `Total Float ≤ 0` count of the summary annotation. -/
def info_tf_0 (filtered_df : List CleanRow) : ℕ :=
  (filtered_df.filter in_tf_0).length

/-- Line 282: the `0 < Total Float ≤ 10` count of the summary annotation. -/
def info_tf_0_10 (filtered_df : List CleanRow) : ℕ :=
  (filtered_df.filter in_tf_0_10).length

/-- Line 283: the `10 < Total Float ≤ 20` count of the summary annotation. -/
def info_tf_10_20 (filtered_df : List CleanRow) : ℕ :=
  (filtered_df.filter in_tf_10_20).length

/-- Line 284: the `Total Float > 20` count of the summary annotation. -/
def info_tf_20 (filtered_df : List CleanRow) : ℕ :=
  (filtered_df.filter in_tf_20).length

/-- Line 125: the derived `'Category'` column —
`filtered_df['Total Float'].apply(categorize_float)`. -/
def categoryColumn (filtered_df : List CleanRow) : List String :=
  filtered_df.map (fun r => categorize_float r.totalFloat)

/-- The rows of a bucket: the rows whose `'Category'` value equals the given
label (the groups behind `value_counts` on line 144). -/
def bucketRows (filtered_df : List CleanRow) (label : String) : List CleanRow :=
  filtered_df.filter (fun r => decide (categorize_float r.totalFloat = label))

/-- Lines 144 and 340: `filtered_df['Category'].value_counts().to_dict()` —
one `(label, count)` pair per DISTINCT value occurring in the `'Category'`
column; labels with no occurrence get no entry. -/
def category_distribution (filtered_df : List CleanRow) : List (String × ℕ) :=
  (categoryColumn filtered_df).dedup.map
    (fun l => (l, (categoryColumn filtered_df).count l))

/-- Lines 146-147: the printed distribution loops over all four labels of
`category_order` and prints `category_counts.get(cat, 0)`, i.e. the count,
with 0 for an absent label. -/
def printed_distribution (filtered_df : List CleanRow) : List (String × ℕ) :=
  category_order.map (fun l => (l, (categoryColumn filtered_df).count l))

/-- pandas column assignment `df.loc[:, c] = ...` / `df[c] = ...` on the
schema: appends the column name when it is new, otherwise leaves the schema
unchanged. -/
def addColumn (cols : List String) (c : String) : List String :=
  if c ∈ cols then cols else cols ++ [c]

/-- The schema of `filtered_df` at the `generate_excel_by_categories` call
site (line 323): the cleaned schema plus the derived `'Category'` column
(line 125) and the derived `'tooltip_text'` column (line 150), in that
order.  The status filter, numeric coercion and `dropna` (lines 97-106) do
not change the column set. -/
def exportColumns (cols : List String) : List String :=
  addColumn (addColumn cols "Category") "tooltip_text"

/-- The six required input columns accessed by
`create_interactive_scatter_plot`. -/
def sourceColumns : List String :=
  ["Activity ID", "Activity Name", "Activity Status",
   "Variance - BL Project Finish Date", "Variance - BL Project Duration",
   "Total Float"]

/-- The observable outcome of `generate_excel_by_categories` (lines 26-61):
the four sheets written to the workbook, the column set written in every
sheet (`to_excel` with `index=False` writes all columns of the frame), the
returned path, and the caller's frame after the call (schema and rows). -/
structure ExcelResult where
  sheet_tf_0 : List CleanRow
  sheet_tf_0_10 : List CleanRow
  sheet_tf_10_20 : List CleanRow
  sheet_tf_20 : List CleanRow
  sheetColumns : List String
  returnedPath : String
  dfColsAfter : List String
  dfRowsAfter : List CleanRow
deriving DecidableEq

/-- Lines 26-61: `generate_excel_by_categories`.  Each sheet is a boolean-mask
selection of `filtered_df` (lines 42-55), which in pandas builds a new frame
and never mutates `filtered_df`; `to_excel` only writes.  The function returns
`os.path.abspath(filename)`; path resolution is modelled as the identity on
the name.  The caller's frame is therefore returned unchanged as the final
state (`dfColsAfter`, `dfRowsAfter`). -/
def generate_excel_by_categories (cols : List String)
    (filtered_df : List CleanRow) (filename : String) : ExcelResult :=
  ⟨df_tf_0 filtered_df, df_tf_0_10 filtered_df, df_tf_10_20 filtered_df,
   df_tf_20 filtered_df, cols, filename, cols, filtered_df⟩

/-- The input workbook as loaded at line 89: its column names and its rows.
The row fields hold the cell values of the corresponding columns when those
columns exist; whether an access succeeds is gated by `columns`. -/
structure RawFile where
  columns : List String
  rows : List RawRow

/-- `create_interactive_scatter_plot` (lines 63-342), restricted to its
data-flow: each `df['col']` access on a missing column raises a `KeyError`
that propagates (modelled as `Except.error` with the column name), in source
order:  `'Activity Status'` at lines 94/97, the three numeric columns at
lines 101-103, and `'Activity ID'` / `'Activity Name'` in the tooltip
construction at lines 150-158.  (The tooltip step fails on a missing column
also when the cleaned frame is empty: pandas then rejects assigning the
degenerate result of `apply` on an empty frame to the single column
`'tooltip_text'`.)  On success it yields the cleaned rows and, with the
default `generate_excel=True`, the Excel export of line 323, performed on the
frame extended with the two derived columns. -/
def create_interactive_scatter_plot (f : RawFile) :
    Except String (List CleanRow × ExcelResult) :=
  if "Activity Status" ∉ f.columns then Except.error "Activity Status" else
  if "Variance - BL Project Finish Date" ∉ f.columns then
    Except.error "Variance - BL Project Finish Date" else
  if "Variance - BL Project Duration" ∉ f.columns then
    Except.error "Variance - BL Project Duration" else
  if "Total Float" ∉ f.columns then Except.error "Total Float" else
  if "Activity ID" ∉ f.columns then Except.error "Activity ID" else
  if "Activity Name" ∉ f.columns then Except.error "Activity Name" else
  Except.ok (cleanRows f.rows,
    generate_excel_by_categories (exportColumns f.columns) (cleanRows f.rows)
      "activities_by_category.xlsx")

/-- A sample non-completed row used to instantiate theorems: 3 days early,
5 days shorter, 5 days of float (the spec's first quadrant example). -/
def wRow1 : CleanRow :=
  ⟨"A1000", "Install pipe", "In Progress", -3, -5, 5⟩

/-- A second sample row: 2 days late, 1 day shorter, 25 days of float (the
spec's second quadrant example). -/
def wRow2 : CleanRow :=
  ⟨"A1010", "Pour slab", "Not Started", 2, -1, 25⟩

/-- A two-row cleaned record set built from the sample rows. -/
def wRows : List CleanRow := [wRow1, wRow2]

/-- The raw form of `wRow1`: all three numeric cells parse. -/
def wRaw1 : RawRow :=
  ⟨"A1000", "Install pipe", "In Progress", some (-3), some (-5), some 5⟩

/-- A raw row whose status is exactly `"Completed"`. -/
def wRawCompleted : RawRow :=
  ⟨"A0001", "Mobilize", "Completed", some 1, some 1, some 1⟩

/-- A raw row whose total-float cell fails numeric parsing (a text
placeholder, coerced to NaN). -/
def wRawBad : RawRow :=
  ⟨"A0002", "Survey", "In Progress", some 2, some 3, none⟩

/-- A small raw record set mixing the three kinds of rows. -/
def wRawFile : List RawRow := [wRawCompleted, wRaw1, wRawBad]

/-- A loaded workbook missing the required `'Total Float'` column. -/
def wBadFile : RawFile :=
  ⟨["Activity ID", "Activity Name", "Activity Status",
    "Variance - BL Project Finish Date", "Variance - BL Project Duration"],
   [wRaw1]⟩

end Scatter

namespace Scatter

/-- The four threshold predicates of the sheets/summary are mutually exclusive
and exhaustive: for every rational exactly one of them holds (counted as 1). -/
theorem tf_one_hot (x : ℚ) :
    ((if x ≤ 0 then 1 else 0) + (if 0 < x ∧ x ≤ 10 then 1 else 0)
      + (if 10 < x ∧ x ≤ 20 then 1 else 0) + (if 20 < x then 1 else 0) : ℕ)
      = 1 := by
  rcases le_or_lt x 0 with h1 | h1
  · rw [if_pos h1, if_neg (by rintro ⟨a, b⟩; linarith),
      if_neg (by rintro ⟨a, b⟩; linarith), if_neg (by intro a; linarith)]
  · rcases le_or_lt x 10 with h2 | h2
    · rw [if_neg (by linarith), if_pos ⟨h1, h2⟩,
        if_neg (by rintro ⟨a, b⟩; linarith), if_neg (by intro a; linarith)]
    · rcases le_or_lt x 20 with h3 | h3
      · rw [if_neg (by linarith), if_neg (by rintro ⟨a, b⟩; linarith),
          if_pos ⟨h2, h3⟩, if_neg (by intro a; linarith)]
      · rw [if_neg (by linarith), if_neg (by rintro ⟨a, b⟩; linarith),
          if_neg (by rintro ⟨a, b⟩; linarith), if_pos h3]

/-- C1: `categorize_float` is total and deterministic (it is a Lean function),
and it follows the threshold rule: value ≤ 0 gives the first label, values in
(0, 10] the second, values in (10, 20] the third, and values above 20 the
fourth. -/
theorem categorize_float_threshold_rule (x : ℚ) :
    (x ≤ 0 → categorize_float x = "Total Float ≤ 0") ∧
    (0 < x → x ≤ 10 → categorize_float x = "0 < Total Float ≤ 10") ∧
    (10 < x → x ≤ 20 → categorize_float x = "10 < Total Float ≤ 20") ∧
    (20 < x → categorize_float x = "Total Float > 20") := by
  unfold categorize_float
  split_ifs with h1 h2 h3 <;>
    refine ⟨?_, ?_, ?_, ?_⟩ <;> intros <;> first | rfl | (exfalso; linarith)

/-- C1 witness: the boundary values 0 and 10 land in the lower buckets, as the
claim singles out. -/
theorem categorize_float_threshold_rule_witness :
    categorize_float 0 = "Total Float ≤ 0" ∧
    categorize_float 10 = "0 < Total Float ≤ 10" :=
  ⟨(categorize_float_threshold_rule 0).1 (le_refl 0),
   (categorize_float_threshold_rule 10).2.1 (by norm_num) (le_refl 10)⟩

/-- The first bucket label is returned exactly on values `≤ 0`. -/
theorem categorize_eq_tf_0 (x : ℚ) :
    categorize_float x = "Total Float ≤ 0" ↔ x ≤ 0 := by
  unfold categorize_float
  split_ifs with h1 h2 h3 <;> constructor <;> intro h <;>
    first
      | rfl
      | exact absurd h (by decide)
      | (exfalso; rcases h with ⟨ha, hb⟩; linarith)
      | (exfalso; linarith)
      | (constructor <;> linarith)
      | linarith

/-- The second bucket label is returned exactly on values in `(0, 10]`. -/
theorem categorize_eq_tf_0_10 (x : ℚ) :
    categorize_float x = "0 < Total Float ≤ 10" ↔ 0 < x ∧ x ≤ 10 := by
  unfold categorize_float
  split_ifs with h1 h2 h3 <;> constructor <;> intro h <;>
    first
      | rfl
      | exact absurd h (by decide)
      | (exfalso; rcases h with ⟨ha, hb⟩; linarith)
      | (exfalso; linarith)
      | (constructor <;> linarith)
      | linarith

/-- The third bucket label is returned exactly on values in `(10, 20]`. -/
theorem categorize_eq_tf_10_20 (x : ℚ) :
    categorize_float x = "10 < Total Float ≤ 20" ↔ 10 < x ∧ x ≤ 20 := by
  unfold categorize_float
  split_ifs with h1 h2 h3 <;> constructor <;> intro h <;>
    first
      | rfl
      | exact absurd h (by decide)
      | (exfalso; rcases h with ⟨ha, hb⟩; linarith)
      | (exfalso; linarith)
      | (constructor <;> linarith)
      | linarith

/-- The fourth bucket label is returned exactly on values `> 20`. -/
theorem categorize_eq_tf_20 (x : ℚ) :
    categorize_float x = "Total Float > 20" ↔ 20 < x := by
  unfold categorize_float
  split_ifs with h1 h2 h3 <;> constructor <;> intro h <;>
    first
      | rfl
      | exact absurd h (by decide)
      | (exfalso; rcases h with ⟨ha, hb⟩; linarith)
      | (exfalso; linarith)
      | (constructor <;> linarith)
      | linarith

/-- Every value of `categorize_float` is one of the four labels of
`category_order`. -/
theorem categorize_float_mem_order (x : ℚ) :
    categorize_float x ∈ category_order := by
  unfold categorize_float category_order
  split_ifs <;> simp

/-- Membership in the first sheet selection. -/
theorem mem_df_tf_0 {df : List CleanRow} {r : CleanRow} :
    r ∈ df_tf_0 df ↔ r ∈ df ∧ r.totalFloat ≤ 0 := by
  simp [df_tf_0, in_tf_0, List.mem_filter]

/-- Membership in the second sheet selection. -/
theorem mem_df_tf_0_10 {df : List CleanRow} {r : CleanRow} :
    r ∈ df_tf_0_10 df ↔ r ∈ df ∧ 0 < r.totalFloat ∧ r.totalFloat ≤ 10 := by
  simp [df_tf_0_10, in_tf_0_10, List.mem_filter]

/-- Membership in the third sheet selection. -/
theorem mem_df_tf_10_20 {df : List CleanRow} {r : CleanRow} :
    r ∈ df_tf_10_20 df ↔ r ∈ df ∧ 10 < r.totalFloat ∧ r.totalFloat ≤ 20 := by
  simp [df_tf_10_20, in_tf_10_20, List.mem_filter]

/-- Membership in the fourth sheet selection. -/
theorem mem_df_tf_20 {df : List CleanRow} {r : CleanRow} :
    r ∈ df_tf_20 df ↔ r ∈ df ∧ 20 < r.totalFloat := by
  simp [df_tf_20, in_tf_20, List.mem_filter]

/-- C2: quadrant membership is decided by the strict signs of the two
variance fields — membership in each of the four quadrant selections holds
exactly for the corresponding sign pair, and a row with either variance
exactly zero lies in none of the four quadrants. -/
theorem quadrant_sign_rule (df : List CleanRow) (r : CleanRow) :
    (r ∈ quadrant_earlier_and_shorter df ↔
      r ∈ df ∧ r.varianceBLFinish < 0 ∧ r.varianceBLDuration < 0) ∧
    (r ∈ quadrant_earlier_but_longer df ↔
      r ∈ df ∧ r.varianceBLFinish < 0 ∧ 0 < r.varianceBLDuration) ∧
    (r ∈ quadrant_later_but_shorter df ↔
      r ∈ df ∧ 0 < r.varianceBLFinish ∧ r.varianceBLDuration < 0) ∧
    (r ∈ quadrant_later_and_longer df ↔
      r ∈ df ∧ 0 < r.varianceBLFinish ∧ 0 < r.varianceBLDuration) ∧
    ((r.varianceBLFinish = 0 ∨ r.varianceBLDuration = 0) →
      r ∉ quadrant_earlier_and_shorter df ∧
      r ∉ quadrant_earlier_but_longer df ∧
      r ∉ quadrant_later_but_shorter df ∧
      r ∉ quadrant_later_and_longer df) := by
  refine ⟨?_, ?_, ?_, ?_, ?_⟩
  · simp [quadrant_earlier_and_shorter, List.mem_filter, and_assoc]
  · simp [quadrant_earlier_but_longer, List.mem_filter, and_assoc]
  · simp [quadrant_later_but_shorter, List.mem_filter, and_assoc]
  · simp [quadrant_later_and_longer, List.mem_filter, and_assoc]
  · rintro (h0 | h0) <;>
      refine ⟨?_, ?_, ?_, ?_⟩ <;>
      simp only [quadrant_earlier_and_shorter, quadrant_earlier_but_longer,
        quadrant_later_but_shorter, quadrant_later_and_longer,
        List.mem_filter, Bool.and_eq_true, decide_eq_true_eq, gt_iff_lt,
        not_and, not_lt] <;>
      intro _ h1 <;> linarith

/-- C2 witness: the spec's two examples — variances (-3, -5) land in
"Earlier and shorter" and variances (2, -1) land in "Later but shorter". -/
theorem quadrant_sign_rule_witness :
    wRow1 ∈ quadrant_earlier_and_shorter wRows ∧
    wRow2 ∈ quadrant_later_but_shorter wRows :=
  ⟨(quadrant_sign_rule wRows wRow1).1.mpr (by decide),
   (quadrant_sign_rule wRows wRow2).2.2.1.mpr (by decide)⟩

/-- Helper for C3: the four sheet selections together keep every row exactly
once, counted by length. -/
theorem sheets_length (df : List CleanRow) :
    (df_tf_0 df).length + (df_tf_0_10 df).length + (df_tf_10_20 df).length
      + (df_tf_20 df).length = df.length := by
  induction df with
  | nil => rfl
  | cons a t ih =>
      have h := tf_one_hot a.totalFloat
      simp only [df_tf_0, df_tf_0_10, df_tf_10_20, df_tf_20,
        List.filter_cons, in_tf_0, in_tf_0_10, in_tf_10_20, in_tf_20,
        Bool.and_eq_true, decide_eq_true_eq] at ih ⊢
      split_ifs at h ⊢ <;> simp only [List.length_cons] <;> omega

/-- C3: the four bucket-filtered sheets written by
`generate_excel_by_categories` cover the whole cleaned record set, are
pairwise disjoint, and their sizes add up to the size of the cleaned set —
every cleaned row appears in exactly one sheet. -/
theorem excel_sheets_partition (df : List CleanRow) :
    (∀ r ∈ df, r ∈ df_tf_0 df ∨ r ∈ df_tf_0_10 df ∨ r ∈ df_tf_10_20 df ∨
      r ∈ df_tf_20 df) ∧
    (∀ r : CleanRow, ¬(r ∈ df_tf_0 df ∧ r ∈ df_tf_0_10 df)) ∧
    (∀ r : CleanRow, ¬(r ∈ df_tf_0 df ∧ r ∈ df_tf_10_20 df)) ∧
    (∀ r : CleanRow, ¬(r ∈ df_tf_0 df ∧ r ∈ df_tf_20 df)) ∧
    (∀ r : CleanRow, ¬(r ∈ df_tf_0_10 df ∧ r ∈ df_tf_10_20 df)) ∧
    (∀ r : CleanRow, ¬(r ∈ df_tf_0_10 df ∧ r ∈ df_tf_20 df)) ∧
    (∀ r : CleanRow, ¬(r ∈ df_tf_10_20 df ∧ r ∈ df_tf_20 df)) ∧
    (df_tf_0 df).length + (df_tf_0_10 df).length + (df_tf_10_20 df).length
      + (df_tf_20 df).length = df.length := by
  refine ⟨?_, ?_, ?_, ?_, ?_, ?_, ?_, sheets_length df⟩
  · intro r hr
    rcases le_or_lt r.totalFloat 0 with h | h
    · exact Or.inl (mem_df_tf_0.mpr ⟨hr, h⟩)
    · rcases le_or_lt r.totalFloat 10 with h2 | h2
      · exact Or.inr (Or.inl (mem_df_tf_0_10.mpr ⟨hr, h, h2⟩))
      · rcases le_or_lt r.totalFloat 20 with h3 | h3
        · exact Or.inr (Or.inr (Or.inl (mem_df_tf_10_20.mpr ⟨hr, h2, h3⟩)))
        · exact Or.inr (Or.inr (Or.inr (mem_df_tf_20.mpr ⟨hr, h3⟩)))
  · rintro r ⟨h1, h2⟩
    obtain ⟨-, a1⟩ := mem_df_tf_0.mp h1
    obtain ⟨-, a2, a3⟩ := mem_df_tf_0_10.mp h2
    linarith
  · rintro r ⟨h1, h2⟩
    obtain ⟨-, a1⟩ := mem_df_tf_0.mp h1
    obtain ⟨-, a2, a3⟩ := mem_df_tf_10_20.mp h2
    linarith
  · rintro r ⟨h1, h2⟩
    obtain ⟨-, a1⟩ := mem_df_tf_0.mp h1
    obtain ⟨-, a2⟩ := mem_df_tf_20.mp h2
    linarith
  · rintro r ⟨h1, h2⟩
    obtain ⟨-, a1, a2⟩ := mem_df_tf_0_10.mp h1
    obtain ⟨-, a3, a4⟩ := mem_df_tf_10_20.mp h2
    linarith
  · rintro r ⟨h1, h2⟩
    obtain ⟨-, a1, a2⟩ := mem_df_tf_0_10.mp h1
    obtain ⟨-, a3⟩ := mem_df_tf_20.mp h2
    linarith
  · rintro r ⟨h1, h2⟩
    obtain ⟨-, a1, a2⟩ := mem_df_tf_10_20.mp h1
    obtain ⟨-, a3⟩ := mem_df_tf_20.mp h2
    linarith

/-- C3 witness: on the two sample rows, the first row lands in some sheet and
the sheet sizes add up to the set size. -/
theorem excel_sheets_partition_witness :
    (wRow1 ∈ df_tf_0 wRows ∨ wRow1 ∈ df_tf_0_10 wRows ∨
      wRow1 ∈ df_tf_10_20 wRows ∨ wRow1 ∈ df_tf_20 wRows) ∧
    (df_tf_0 wRows).length + (df_tf_0_10 wRows).length
      + (df_tf_10_20 wRows).length + (df_tf_20 wRows).length
      = wRows.length :=
  ⟨(excel_sheets_partition wRows).1 wRow1 (by decide),
   (excel_sheets_partition wRows).2.2.2.2.2.2.2⟩

/-- `dropnaRow` keeps the status field unchanged. -/
theorem dropnaRow_status {a : RawRow} {c : CleanRow}
    (h : dropnaRow a = some c) : c.activityStatus = a.activityStatus := by
  rcases hfv : a.varianceBLFinish with _ | x <;>
    rcases hdv : a.varianceBLDuration with _ | y <;>
    rcases htf : a.totalFloat with _ | z <;>
    simp_all [dropnaRow] <;> rw [← h]

/-- Membership in the status-filtered set. -/
theorem mem_statusFilter {df : List RawRow} {r : RawRow} :
    r ∈ statusFilter df ↔ r ∈ df ∧ r.activityStatus ≠ "Completed" := by
  simp [statusFilter, List.mem_filter]

/-- Membership in the cleaned record set, unfolded to the originating raw
row. -/
theorem mem_cleanRows {df : List RawRow} {c : CleanRow} :
    c ∈ cleanRows df ↔
      ∃ a, a ∈ df ∧ a.activityStatus ≠ "Completed" ∧ dropnaRow a = some c := by
  simp [cleanRows, statusFilter, List.mem_filterMap, List.mem_filter,
    and_assoc]

/-- C5: every row whose status is exactly `'Completed'` is absent from the
cleaned record set (no cleaned row carries that status), while the status
filter keeps every row with any other status value. -/
theorem completed_rows_excluded (df : List RawRow) :
    (∀ c ∈ cleanRows df, c.activityStatus ≠ "Completed") ∧
    (∀ r ∈ df, r.activityStatus ≠ "Completed" → r ∈ statusFilter df) := by
  constructor
  · intro c hc
    obtain ⟨a, -, hs, hda⟩ := mem_cleanRows.mp hc
    rw [dropnaRow_status hda]
    exact hs
  · intro r hr hs
    exact mem_statusFilter.mpr ⟨hr, hs⟩

/-- C5 witness: on the sample raw file, the cleaned row of `wRaw1` is not
completed, and `wRaw1` (status `"In Progress"`) survives the status
filter. -/
theorem completed_rows_excluded_witness :
    wRow1.activityStatus ≠ "Completed" ∧ wRaw1 ∈ statusFilter wRawFile :=
  ⟨(completed_rows_excluded wRawFile).1 wRow1 (by decide),
   (completed_rows_excluded wRawFile).2 wRaw1 (by decide) (by decide)⟩

/-- A raw row with any unparsed numeric cell produces no cleaned row. -/
theorem dropnaRow_none {r : RawRow}
    (h : r.varianceBLFinish = none ∨ r.varianceBLDuration = none ∨
      r.totalFloat = none) :
    dropnaRow r = none := by
  rcases hfv : r.varianceBLFinish with _ | x <;>
    rcases hdv : r.varianceBLDuration with _ | y <;>
    rcases htf : r.totalFloat with _ | z <;>
    simp_all [dropnaRow]

/-- C6: a row in which any of the three numeric fields fails numeric parsing
is coerced to missing and dropped: it yields no cleaned row, its presence
does not change the cleaned record set at all (hence no count, bucket or
sheet), and the pipeline still succeeds without an error when all required
columns are present. -/
theorem unparsed_numeric_row_dropped (r : RawRow)
    (hbad : r.varianceBLFinish = none ∨ r.varianceBLDuration = none ∨
      r.totalFloat = none) :
    dropnaRow r = none ∧
    (∀ df : List RawRow, cleanRows (r :: df) = cleanRows df) ∧
    (∀ cols : List String, ∀ rows : List RawRow,
      (∀ c ∈ sourceColumns, c ∈ cols) →
      ∃ out, create_interactive_scatter_plot ⟨cols, r :: rows⟩
        = Except.ok out) := by
  have hn := dropnaRow_none hbad
  refine ⟨hn, ?_, ?_⟩
  · intro df
    by_cases hs : r.activityStatus = "Completed" <;>
      simp [cleanRows, statusFilter, List.filter_cons, hs,
        List.filterMap_cons, hn]
  · intro cols rows hcols
    have h1 := hcols "Activity Status" (by decide)
    have h2 := hcols "Variance - BL Project Finish Date" (by decide)
    have h3 := hcols "Variance - BL Project Duration" (by decide)
    have h4 := hcols "Total Float" (by decide)
    have h5 := hcols "Activity ID" (by decide)
    have h6 := hcols "Activity Name" (by decide)
    refine ⟨(cleanRows (r :: rows),
      generate_excel_by_categories (exportColumns cols)
        (cleanRows (r :: rows)) "activities_by_category.xlsx"), ?_⟩
    simp [create_interactive_scatter_plot, h1, h2, h3, h4, h5, h6]

/-- C6 witness: the sample row with an unparseable total float yields no
cleaned row, and a file holding only that row cleans to the empty set. -/
theorem unparsed_numeric_row_dropped_witness :
    dropnaRow wRawBad = none ∧ cleanRows [wRawBad] = [] := by
  have h := unparsed_numeric_row_dropped wRawBad (by decide)
  exact ⟨h.1, (h.2.1 []).trans rfl⟩

/-- C7: on a loaded file lacking any one of the six required columns, the
pipeline stops with a column-lookup failure (the missing column's name) and
never reaches the chart or spreadsheet outputs. -/
theorem missing_column_aborts (f : RawFile) (c : String)
    (hc : c ∈ sourceColumns) (hmiss : c ∉ f.columns) :
    ∃ e, create_interactive_scatter_plot f = Except.error e := by
  fin_cases hc <;>
    · unfold create_interactive_scatter_plot
      split_ifs <;> first | exact ⟨_, rfl⟩ | simp_all

/-- C7 witness: a file without the `'Total Float'` column aborts. -/
theorem missing_column_aborts_witness :
    ∃ e, create_interactive_scatter_plot wBadFile = Except.error e :=
  missing_column_aborts wBadFile "Total Float" (by decide) (by decide)

/-- C8: the summary annotation of the chart reports the size of the cleaned
record set as its total, and each of its four per-bucket counts equals the
number of cleaned rows whose `'Category'` value is the corresponding bucket
label. -/
theorem summary_annotation_counts (df : List CleanRow) :
    info_total_activities df = df.length ∧
    info_tf_0 df = (bucketRows df "Total Float ≤ 0").length ∧
    info_tf_0_10 df = (bucketRows df "0 < Total Float ≤ 10").length ∧
    info_tf_10_20 df = (bucketRows df "10 < Total Float ≤ 20").length ∧
    info_tf_20 df = (bucketRows df "Total Float > 20").length := by
  refine ⟨rfl, ?_, ?_, ?_, ?_⟩
  · refine congrArg List.length (List.filter_congr ?_)
    intro r _
    exact decide_eq_decide.mpr (categorize_eq_tf_0 r.totalFloat).symm
  · refine congrArg List.length (List.filter_congr ?_)
    intro r _
    calc in_tf_0_10 r
        = decide (0 < r.totalFloat ∧ r.totalFloat ≤ 10) := (Bool.decide_and _ _).symm
      _ = decide (categorize_float r.totalFloat = "0 < Total Float ≤ 10") :=
          decide_eq_decide.mpr (categorize_eq_tf_0_10 r.totalFloat).symm
  · refine congrArg List.length (List.filter_congr ?_)
    intro r _
    calc in_tf_10_20 r
        = decide (10 < r.totalFloat ∧ r.totalFloat ≤ 20) := (Bool.decide_and _ _).symm
      _ = decide (categorize_float r.totalFloat = "10 < Total Float ≤ 20") :=
          decide_eq_decide.mpr (categorize_eq_tf_10_20 r.totalFloat).symm
  · refine congrArg List.length (List.filter_congr ?_)
    intro r _
    exact decide_eq_decide.mpr (categorize_eq_tf_20 r.totalFloat).symm

/-- C9: the returned `category_distribution` dictionary has a key exactly for
the labels realized by at least one cleaned row, so an empty bucket gives a
dictionary with fewer than four entries, while the printed distribution
always reports all four labels (with 0 for the empty ones). -/
theorem category_distribution_keys (df : List CleanRow) :
    (∀ l, l ∈ (category_distribution df).map Prod.fst ↔
      ∃ r ∈ df, categorize_float r.totalFloat = l) ∧
    ((∃ l ∈ category_order, ∀ r ∈ df, categorize_float r.totalFloat ≠ l) →
      (category_distribution df).length < 4) ∧
    (printed_distribution df).length = 4 := by
  refine ⟨?_, ?_, ?_⟩
  · intro l
    simp [category_distribution, categoryColumn, List.mem_dedup,
      List.mem_map]
  · rintro ⟨l, hl, hempty⟩
    have hnodup : (categoryColumn df).dedup.Nodup := List.nodup_dedup _
    have hsub : (categoryColumn df).dedup ⊆ category_order.erase l := by
      intro a ha
      have hmem : a ∈ categoryColumn df := List.mem_dedup.mp ha
      obtain ⟨r, hr, hra⟩ := List.mem_map.mp hmem
      have hin : a ∈ category_order :=
        hra ▸ categorize_float_mem_order r.totalFloat
      have hne : a ≠ l := by
        rintro rfl
        exact hempty r hr hra
      exact (List.mem_erase_of_ne hne).mpr hin
    have hlen : (categoryColumn df).dedup.length
        ≤ (category_order.erase l).length :=
      (List.subperm_of_subset hnodup hsub).length_le
    have h3 : (category_order.erase l).length = 3 := by
      rw [List.length_erase_of_mem hl]
      rfl
    have hdist : (category_distribution df).length
        = (categoryColumn df).dedup.length := by
      simp [category_distribution]
    omega
  · simp [printed_distribution, category_order]

/-- C9 witness: on the two sample rows (floats 5 and 25), the first bucket is
empty, so the returned dictionary has fewer than four entries, while the
`(0, 10]` label does appear as a key. -/
theorem category_distribution_keys_witness :
    (category_distribution wRows).length < 4 ∧
    "0 < Total Float ≤ 10" ∈ (category_distribution wRows).map Prod.fst :=
  ⟨(category_distribution_keys wRows).2.1
      ⟨"Total Float ≤ 0", by decide, by decide⟩,
   ((category_distribution_keys wRows).1 "0 < Total Float ≤ 10").mpr
      ⟨wRow1, by decide, by decide⟩⟩

/-- C10: `generate_excel_by_categories` only reads its input frame: the
frame after the call has exactly the rows (in order) and the columns it had
before, the returned path is the requested file name, and every sheet is a
selection (an order-preserving sublist) of the input rows. -/
theorem generate_excel_preserves_input (cols : List String)
    (rows : List CleanRow) (filename : String) :
    (generate_excel_by_categories cols rows filename).dfRowsAfter = rows ∧
    (generate_excel_by_categories cols rows filename).dfColsAfter = cols ∧
    (generate_excel_by_categories cols rows filename).returnedPath
      = filename ∧
    List.Sublist ((generate_excel_by_categories cols rows filename).sheet_tf_0)
      rows ∧
    List.Sublist
      ((generate_excel_by_categories cols rows filename).sheet_tf_0_10) rows ∧
    List.Sublist
      ((generate_excel_by_categories cols rows filename).sheet_tf_10_20)
      rows ∧
    List.Sublist ((generate_excel_by_categories cols rows filename).sheet_tf_20)
      rows := by
  refine ⟨rfl, rfl, rfl, ?_, ?_, ?_, ?_⟩ <;> exact List.filter_sublist _

/-- C4 counterexample: with the six cleaned input columns, the sheets written
by the export at line 323 do NOT have the cleaned schema — the frame passed
in carries the derived `'Category'` and `'tooltip_text'` columns. -/
theorem excel_sheet_columns_not_cleaned_schema :
    (generate_excel_by_categories (exportColumns sourceColumns) []
        "activities_by_category.xlsx").sheetColumns ≠ sourceColumns := by
  decide

/-- C4 amended: each exported sheet's column set is the cleaned input schema
extended with the two derived columns `'Category'` and `'tooltip_text'`, in
that order (provided the input schema does not already contain those two
names). -/
theorem excel_sheet_columns_amended (cols : List String)
    (rows : List CleanRow) (filename : String)
    (h1 : "Category" ∉ cols) (h2 : "tooltip_text" ∉ cols) :
    (generate_excel_by_categories (exportColumns cols) rows
        filename).sheetColumns = cols ++ ["Category", "tooltip_text"] := by
  have h3 : "tooltip_text" ∉ cols ++ ["Category"] := by
    simp only [List.mem_append, List.mem_singleton]
    rintro (hx | hx)
    · exact h2 hx
    · exact absurd hx (by decide)
  show exportColumns cols = cols ++ ["Category", "tooltip_text"]
  unfold exportColumns addColumn
  rw [if_neg h1, if_neg h3, List.append_assoc]
  rfl

/-- C4 amended witness: instantiated at the six-column cleaned schema. -/
theorem excel_sheet_columns_amended_witness :
    (generate_excel_by_categories (exportColumns sourceColumns) []
        "activities_by_category.xlsx").sheetColumns
      = sourceColumns ++ ["Category", "tooltip_text"] :=
  excel_sheet_columns_amended sourceColumns [] "activities_by_category.xlsx"
    (by decide) (by decide)

end Scatter
